import Mathlib

/-!
Verification of the resilient pipeline layer of the customgpt-widget backend:
the retry/backoff engine (`backend/retry_utils.py`), the fallback-chain
executor (`backend/fallback.py`), the STT stage (`backend/stt.py`) and the
unified STT → AI → TTS inference endpoint (`backend/routes/inference.py`).

Python strings are embedded as Lean `String` with slicing, concatenation,
lowering and substring search expressed over the underlying character list
(Python slices and `in` operate on code points). Python exceptions are
embedded as a kind (the `isinstance` classes the code checks) plus a message
(`str(exception)`). Async provider calls are embedded as their outcomes
(`Except` values), and functions returning delays take the random draw of
the jitter as an explicit parameter.
-/

namespace CGW

/-- Python `s[:n]`: the first `n` code points of `s`. -/
def pySlice (s : String) (n : Nat) : String := ⟨s.data.take n⟩

/-- Python `s + t` on strings. -/
def pyConcat (s t : String) : String := ⟨s.data ++ t.data⟩

/-- Python `len(s)`: number of code points. -/
def pyLen (s : String) : Nat := s.data.length

/-- Python `s.lower()` (ASCII range, which covers every token the code tests). -/
def pyLower (s : String) : String := ⟨s.data.map Char.toLower⟩

/-- List-level substring test: `needle` occurs contiguously in `hay`. -/
def containsSub (needle hay : List Char) : Bool :=
  hay.tails.any (fun t => needle.isPrefixOf t)

/-- Python `tok in s` on strings. -/
def msgContains (s tok : String) : Bool := containsSub tok.data s.data

/-- Python `not s or not s.strip()`: `s` is empty or whitespace-only. -/
def isBlank (s : String) : Bool := s.data.all Char.isWhitespace

/-- The exception classes `should_retry` distinguishes by `isinstance`. -/
inductive PyExcKind where
  | connectionError
  | timeoutError
  | asyncioTimeoutError
  | generic
  deriving DecidableEq, Repr

/-- A Python exception: its class together with `str(exception)`. -/
structure PyExc where
  kind : PyExcKind
  msg : String
  deriving DecidableEq, Repr

/-- `isinstance(exception, (ConnectionError, TimeoutError, asyncio.TimeoutError))`. -/
def isNetworkExc : PyExcKind → Bool
  | .connectionError => true
  | .timeoutError => true
  | .asyncioTimeoutError => true
  | .generic => false

/-- `retryable_conditions` from `retry_utils.should_retry`. -/
def retryable_conditions : List String :=
  ["timeout", "connection", "network", "503", "502", "504", "429",
   "rate limit", "too many requests"]

/-- `non_retryable_conditions` from `retry_utils.should_retry`. -/
def non_retryable_conditions : List String :=
  ["401", "403", "404", "invalid api key", "authentication", "authorization"]

/-- `retry_utils.should_retry`: network/timeout classes retry; then the
retryable substrings, then the non-retryable substrings, then `"500"`/`"5xx"`,
else no retry. -/
def should_retry (e : PyExc) : Bool :=
  if isNetworkExc e.kind then true
  else
    let error_msg := pyLower e.msg
    if retryable_conditions.any (fun c => msgContains error_msg c) then true
    else if non_retryable_conditions.any (fun c => msgContains error_msg c) then false
    else if msgContains error_msg "500" || msgContains error_msg "5xx" then true
    else false

/-- `retry_utils.RetryConfig`; delays are exact rationals standing for the
Python floats. -/
structure RetryConfig where
  max_attempts : Nat
  base_delay : ℚ
  max_delay : ℚ
  exponential_base : ℚ
  jitter : Bool
  deriving DecidableEq, Repr

/-- `RetryConfig.calculate_delay`: exponential backoff capped at `max_delay`,
plus `delay * 0.25 * random.random()` when jitter is on; `rand` is the draw of
`random.random()`. -/
def calculate_delay (cfg : RetryConfig) (attempt : Nat) (rand : ℚ) : ℚ :=
  let delay := cfg.base_delay * cfg.exponential_base ^ attempt
  let delay := min delay cfg.max_delay
  if cfg.jitter then delay + delay * (1/4) * rand else delay

/-- `RETRY_CONFIG_STT` from `retry_utils.py`. -/
def RETRY_CONFIG_STT : RetryConfig :=
  { max_attempts := 3, base_delay := 1, max_delay := 5, exponential_base := 2, jitter := true }

/-- `fallback.FallbackResult`. -/
structure FallbackResult (E A : Type) where
  success : Bool
  result : Option A
  provider_used : Option String
  fallback_level : Int
  error : Option E
  deriving DecidableEq, Repr

/-- The fallback loop of `execute_fallback_chain`, entered with the primary's
exception `e`; `level` is the 1-indexed position of the head candidate. Each
candidate is its outcome paired with its name; returns the result and the
names attempted, in order. -/
def fallbackLoop {E A : Type} (e : E) :
    Int → List (String × Except E A) → FallbackResult E A × List String
  | _, [] => (⟨false, none, none, -1, some e⟩, [])
  | level, (name, out) :: rest =>
    match out with
    | .ok v => (⟨true, some v, some name, level, none⟩, [name])
    | .error _ =>
      let (r, ns) := fallbackLoop e (level + 1) rest
      (r, name :: ns)

/-- `fallback.execute_fallback_chain`: try the primary; on its exception walk
the fallback list in order, swallowing each candidate's exception; if all fail
return `success=False, fallback_level=-1` carrying the primary's exception.
Also returns the provider names attempted, in order. -/
def execute_fallback_chain {E A : Type} (primary : Except E A) (primary_name : String)
    (fallback_funcs : List (String × Except E A)) : FallbackResult E A × List String :=
  match primary with
  | .ok v => (⟨true, some v, some primary_name, 0, none⟩, [primary_name])
  | .error e =>
    let (r, ns) := fallbackLoop e 1 fallback_funcs
    (r, primary_name :: ns)

/-- The `for attempt in range(config.max_attempts)` loop of
`retry_utils.retry_async`, at attempt index `attempt` with `fuel` iterations
left. The operation is its outcome at each attempt index; `randf` is the
stream of `random.random()` draws used by the backoff of each attempt.
Returns the final outcome (`none` for the unreachable `raise last_exception`
after a zero-iteration loop), the attempt indices at which the operation was
invoked, and the delays slept, in order. -/
def retryAux {A : Type} (cfg : RetryConfig) (op : Nat → Except PyExc A)
    (randf : Nat → ℚ) : Nat → Nat → Option (Except PyExc A) × List Nat × List ℚ
  | _, 0 => (none, [], [])
  | attempt, fuel + 1 =>
    match op attempt with
    | .ok v => (some (.ok v), [attempt], [])
    | .error e =>
      if should_retry e then
        if fuel = 0 then (some (.error e), [attempt], [])
        else
          let (r, calls, sleeps) := retryAux cfg op randf (attempt + 1) fuel
          (r, attempt :: calls, calculate_delay cfg attempt (randf attempt) :: sleeps)
      else (some (.error e), [attempt], [])

/-- `retry_utils.retry_async`: run the loop from attempt 0 with
`config.max_attempts` iterations. -/
def retry_async {A : Type} (cfg : RetryConfig) (op : Nat → Except PyExc A)
    (randf : Nat → ℚ) : Option (Except PyExc A) × List Nat × List ℚ :=
  retryAux cfg op randf 0 cfg.max_attempts

/-- `fallback.stt_text_only_mode`: never raises, returns the text-only
placeholder. -/
def stt_text_only_mode : Except PyExc String :=
  .ok "[Speech recognition unavailable - please type your message]"

/-- `fallback.STT_FALLBACK_CHAIN`: the single text-only candidate. -/
def STT_FALLBACK_CHAIN : List (String × Except PyExc String) :=
  [("Text-only mode", stt_text_only_mode)]

/-- How the ffmpeg conversion step of `stt.transcribe` can go: succeed, or
raise with the output file never created, or raise after creating it. -/
inductive FfmpegOutcome where
  | ok
  | failNoOutput
  | failWithOutput
  deriving DecidableEq, Repr

/-- Environment of one `stt.transcribe` call: the ffmpeg conversion outcome
and its exception when it fails, the outcome of the retry-wrapped primary
provider (`_transcribe_with_retry`), and the fallback candidates. -/
structure SttEnv where
  ffmpeg : FfmpegOutcome
  ffmpeg_error : PyExc
  primary : Except PyExc String
  fallbacks : List (String × Except PyExc String)

/-- The `FileNotFoundError` that `os.remove` raises on a missing path. -/
def fileNotFoundError : PyExc := ⟨.generic, "filenotfounderror"⟩

/-- State of the two temporary files of `stt.transcribe`:
`/tmp/<uuid>.wav` and `/tmp/converted-<uuid>.wav`. -/
structure SttFiles where
  temp_exists : Bool
  converted_exists : Bool
  deriving DecidableEq, Repr

/-- `os.remove(path)`: delete the file, or raise `FileNotFoundError` when it
does not exist. -/
def osRemove (exists_ : Bool) : Except PyExc Bool :=
  if exists_ then .ok false else .error fileNotFoundError

/-- `stt.transcribe`: write the upload to a temp file, convert it with
ffmpeg, run the retry-wrapped provider through the fallback chain (returning
the text-only message when the whole chain fails), and in a `finally` block
remove the temp file and then — `converted_filepath` being assigned before
the conversion runs, so always in `locals()` — remove the converted file.
A `finally` that raises replaces the in-flight outcome. Returns the outcome
and the final file state. -/
def transcribe (env : SttEnv) : Except PyExc String × SttFiles :=
  let body : Except PyExc String × SttFiles :=
    match env.ffmpeg with
    | .failNoOutput => (.error env.ffmpeg_error, ⟨true, false⟩)
    | .failWithOutput => (.error env.ffmpeg_error, ⟨true, true⟩)
    | .ok =>
      let (fallback_result, _) :=
        execute_fallback_chain env.primary "OpenAI Whisper" env.fallbacks
      if fallback_result.success then
        (.ok (fallback_result.result.getD ""), ⟨true, true⟩)
      else
        (.ok "[Speech recognition unavailable]", ⟨true, true⟩)
  let (outcome, files) := body
  match osRemove files.temp_exists with
  | .error e => (.error e, files)
  | .ok temp' =>
    match osRemove files.converted_exists with
    | .error e => (.error e, ⟨temp', files.converted_exists⟩)
    | .ok conv' => (outcome, ⟨temp', conv'⟩)

/-- `MAX_AUDIO_SIZE` from `routes/inference.py`. -/
def MAX_AUDIO_SIZE : Nat := 10 * 1024 * 1024

/-- Truncation of the transcript in `unified_inference`:
`transcript = transcript[:1000]` when over 1000 chars. -/
def truncate_transcript (transcript : String) : String :=
  if 1000 < pyLen transcript then pySlice transcript 1000 else transcript

/-- Truncation of the AI reply in `unified_inference`:
`ai_response = ai_response[:5000] + "..."` when over 5000 chars. -/
def truncate_ai_response (ai_response : String) : String :=
  if 5000 < pyLen ai_response then pyConcat (pySlice ai_response 5000) "..."
  else ai_response

/-- Outcome of one pipeline stage as `unified_inference` observes it: the
stage's value, `asyncio.TimeoutError` from `asyncio.wait_for`, or any other
exception. -/
inductive StageOutcome (A : Type) where
  | ok (a : A)
  | timeout
  | failure (e : PyExc)

/-- A recorded invocation of a pipeline stage, with the input it was given. -/
inductive StageCall where
  | stt
  | ai (input : String)
  | tts (input : String)
  deriving DecidableEq, Repr

/-- An HTTP error response (`HTTPException(status_code, detail)`). -/
structure HTTPError where
  status : Nat
  detail : String
  deriving DecidableEq, Repr

/-- The successful payload of `unified_inference` the claims are about: the
transcript and AI reply passed onward (headers and conversation). -/
structure PipelineResponse where
  transcript : String
  ai_response : String
  deriving DecidableEq, Repr

/-- One request to `unified_inference`: the validated inputs and, for each
stage, its outcome as a function of the input the pipeline hands it. -/
structure InferenceRequest where
  content_type_has_audio : Bool
  audio_size : Nat
  stt : StageOutcome String
  ai : String → StageOutcome String
  tts : String → StageOutcome Unit

/-- `routes/inference.unified_inference`: validation, then STT under its
deadline (timeout → 504, failure → 500, blank transcript → 400, truncate),
then AI (timeout → 504, failure → 500, blank reply → 500, truncate), then
TTS (timeout → 504, failure → 500), else the streamed response. Returns the
outcome and the stage calls made, in order. -/
def unified_inference (req : InferenceRequest) :
    Except HTTPError PipelineResponse × List StageCall :=
  if req.content_type_has_audio = false then
    (.error ⟨400, "Invalid audio file type"⟩, [])
  else if req.audio_size = 0 then
    (.error ⟨400, "Empty audio file"⟩, [])
  else if MAX_AUDIO_SIZE < req.audio_size then
    (.error ⟨413, "Audio file too large"⟩, [])
  else
    match req.stt with
    | .timeout => (.error ⟨504, "Speech recognition timed out"⟩, [.stt])
    | .failure _ => (.error ⟨500, "Speech recognition failed"⟩, [.stt])
    | .ok transcript0 =>
      if isBlank transcript0 then
        (.error ⟨400, "Could not transcribe audio - please speak clearly"⟩, [.stt])
      else
        match req.ai (truncate_transcript transcript0) with
        | .timeout =>
          (.error ⟨504, "AI response timed out"⟩,
           [.stt, .ai (truncate_transcript transcript0)])
        | .failure _ =>
          (.error ⟨500, "AI processing failed"⟩,
           [.stt, .ai (truncate_transcript transcript0)])
        | .ok ai_response0 =>
          if isBlank ai_response0 then
            (.error ⟨500, "AI returned empty response"⟩,
             [.stt, .ai (truncate_transcript transcript0)])
          else
            match req.tts (truncate_ai_response ai_response0) with
            | .timeout =>
              (.error ⟨504, "Text-to-speech timed out"⟩,
               [.stt, .ai (truncate_transcript transcript0),
                .tts (truncate_ai_response ai_response0)])
            | .failure _ =>
              (.error ⟨500, "Text-to-speech failed"⟩,
               [.stt, .ai (truncate_transcript transcript0),
                .tts (truncate_ai_response ai_response0)])
            | .ok _ =>
              (.ok ⟨truncate_transcript transcript0, truncate_ai_response ai_response0⟩,
               [.stt, .ai (truncate_transcript transcript0),
                .tts (truncate_ai_response ai_response0)])

/-- The retryable message substrings exactly as the spec sentence for the
retry predicate lists them (for comparison with the source's
`retryable_conditions`). -/
def spec_retryable_tokens : List String :=
  ["429", "502", "503", "504", "rate limit", "timeout", "connection", "network"]

/-- The non-retryable message substrings as the spec sentence lists them. -/
def spec_non_retryable_tokens : List String :=
  ["401", "403", "404", "invalid api key", "authentication", "authorization"]

/-- The retry predicate as the spec's classification rules describe it,
checked in the spec's order: network/timeout exception types, then the
spec's retryable substrings, then its non-retryable substrings, then a bare
`"500"`, else non-retryable. -/
def spec_should_retry (e : PyExc) : Bool :=
  if isNetworkExc e.kind then true
  else
    let m := pyLower e.msg
    if spec_retryable_tokens.any (fun c => msgContains m c) then true
    else if spec_non_retryable_tokens.any (fun c => msgContains m c) then false
    else if msgContains m "500" then true
    else false

/-- The spec's retryable substrings completed with `"too many requests"`,
the token the source also treats as retryable. -/
def amended_retryable_tokens : List String :=
  ["429", "502", "503", "504", "rate limit", "timeout", "connection", "network",
   "too many requests"]

/-- The amended retry predicate: the spec's rules plus `"too many requests"`
as a retryable substring and `"5xx"` alongside the bare `"500"`. -/
def amended_should_retry (e : PyExc) : Bool :=
  if isNetworkExc e.kind then true
  else
    let m := pyLower e.msg
    if amended_retryable_tokens.any (fun c => msgContains m c) then true
    else if spec_non_retryable_tokens.any (fun c => msgContains m c) then false
    else if msgContains m "500" || msgContains m "5xx" then true
    else false

/-- The fallback loop on a list whose candidates all fail returns the
exhaustion result carrying the exception it entered with, having attempted
every candidate in order. -/
theorem fallbackLoop_allFail {E A : Type} (e : E) (fs : List (String × Except E A))
    (hf : ∀ p ∈ fs, ∃ e', p.2 = Except.error e') (lv : Int) :
    fallbackLoop e lv fs = (⟨false, none, none, -1, some e⟩, fs.map Prod.fst) := by
  induction fs generalizing lv with
  | nil => rfl
  | cons p rest ih =>
    obtain ⟨name, out⟩ := p
    obtain ⟨e', he'⟩ := hf ⟨name, out⟩ (by simp)
    simp only at he'
    subst he'
    simp only [fallbackLoop, ih (fun q hq => hf q (by simp [hq])) (lv + 1), List.map_cons]

/-- The fallback loop on `pre ++ (name, ok v) :: rest` with every candidate
of `pre` failing succeeds at `name` with level `lv + pre.length`, having
attempted exactly `pre`'s candidates and then `name`. -/
theorem fallbackLoop_firstSuccess {E A : Type} (e : E) (name : String) (v : A)
    (pre rest : List (String × Except E A))
    (hpre : ∀ p ∈ pre, ∃ e', p.2 = Except.error e') (lv : Int) :
    fallbackLoop e lv (pre ++ (name, Except.ok v) :: rest)
      = (⟨true, some v, some name, lv + pre.length, none⟩, pre.map Prod.fst ++ [name]) := by
  induction pre generalizing lv with
  | nil => simp [fallbackLoop]
  | cons p pre' ih =>
    obtain ⟨n, out⟩ := p
    obtain ⟨e', he'⟩ := hpre ⟨n, out⟩ (by simp)
    simp only at he'
    subst he'
    have hl : lv + 1 + (pre'.length : Int) = lv + ((pre'.length + 1 : Nat) : Int) := by
      push_cast
      ring
    simp only [List.cons_append, fallbackLoop, List.append_eq,
      ih (fun q hq => hpre q (by simp [hq])) (lv + 1), List.map_cons,
      List.length_cons, hl]

/-- C1: when the primary raises and every fallback candidate also raises
(including the empty/absent fallback list), `execute_fallback_chain` returns
`success = false`, `fallback_level = -1`, no `provider_used`, and carries
the primary's original exception `e` — not the last fallback's. -/
theorem C1_fallback_exhaustion {E A : Type} (primary : Except E A)
    (primary_name : String) (fallback_funcs : List (String × Except E A)) (e : E)
    (hp : primary = Except.error e)
    (hf : ∀ p ∈ fallback_funcs, ∃ e', p.2 = Except.error e') :
    execute_fallback_chain primary primary_name fallback_funcs
      = (⟨false, none, none, -1, some e⟩, primary_name :: fallback_funcs.map Prod.fst) := by
  subst hp
  simp only [execute_fallback_chain, fallbackLoop_allFail e fallback_funcs hf 1]

/-- Witness for C1: a failing primary with one failing fallback (whose
exception differs from the primary's) yields exhaustion carrying the
primary's exception. -/
theorem C1_fallback_exhaustion_witness :
    execute_fallback_chain (Except.error (⟨.generic, "primary boom"⟩ : PyExc))
        "OpenAI TTS" [("Edge TTS", (Except.error ⟨.generic, "edge boom"⟩ : Except PyExc String))]
      = (⟨false, none, none, -1, some ⟨.generic, "primary boom"⟩⟩, ["OpenAI TTS", "Edge TTS"]) :=
  C1_fallback_exhaustion _ _ _ _ rfl
    (fun p hp => ⟨⟨.generic, "edge boom"⟩, by
      simp only [List.mem_singleton] at hp
      simp [hp]⟩)

/-- C4: when the primary raises, the fallbacks are attempted strictly in
list order, each failing candidate's exception is swallowed and the loop
continues, and the first succeeding candidate — at 1-indexed position
`pre.length + 1` — wins with its name as `provider_used` and its position as
`fallback_level`. -/
theorem C4_fallback_ordering {E A : Type} (e : E) (primary_name name : String) (v : A)
    (pre rest : List (String × Except E A))
    (hpre : ∀ p ∈ pre, ∃ e', p.2 = Except.error e') :
    execute_fallback_chain (Except.error e) primary_name (pre ++ (name, Except.ok v) :: rest)
      = (⟨true, some v, some name, (pre.length : Int) + 1, none⟩,
         primary_name :: (pre.map Prod.fst ++ [name])) := by
  have hl : (1 : Int) + (pre.length : Int) = (pre.length : Int) + 1 := by ring
  simp only [execute_fallback_chain, fallbackLoop_firstSuccess e name v pre rest hpre 1, hl]

/-- Witness for C4: primary fails, fallback1 fails, fallback2 succeeds, so
the chain returns `fallback_level = 2` and fallback2's name. -/
theorem C4_fallback_ordering_witness :
    execute_fallback_chain (Except.error (⟨.generic, "primary boom"⟩ : PyExc)) "Primary"
        [("fallback1", Except.error ⟨.generic, "f1 boom"⟩), ("fallback2", Except.ok "answer")]
      = (⟨true, some "answer", some "fallback2", 2, none⟩,
         ["Primary", "fallback1", "fallback2"]) :=
  C4_fallback_ordering ⟨.generic, "primary boom"⟩ "Primary" "fallback2" "answer"
    [("fallback1", Except.error ⟨.generic, "f1 boom"⟩)] []
    (fun p hp => ⟨⟨.generic, "f1 boom"⟩, by
      simp only [List.mem_singleton] at hp
      simp [hp]⟩)

/-- The source's retryable-substring test and the amended token list test
agree: the lists hold the same nine tokens, in different order. -/
theorem retryable_any_perm (p : String → Bool) :
    retryable_conditions.any p = amended_retryable_tokens.any p := by
  simp only [retryable_conditions, amended_retryable_tokens, List.any_cons, List.any_nil]
  cases p "timeout" <;> cases p "connection" <;> cases p "network" <;>
    cases p "503" <;> cases p "502" <;> cases p "504" <;> cases p "429" <;>
    cases p "rate limit" <;> cases p "too many requests" <;> rfl

/-- C2 counterexample: the message `"Too many requests"` matches none of the
spec's listed tokens, so the spec's rules classify it non-retryable, but the
source's `should_retry` also tests `"too many requests"` and retries it. -/
theorem C2_retry_classification_counterexample :
    should_retry ⟨.generic, "Too many requests"⟩ = true
    ∧ spec_should_retry ⟨.generic, "Too many requests"⟩ = false := by
  refine ⟨by decide, by decide⟩

/-- C2 amended: `should_retry` classifies exactly per the spec's rules once
`"too many requests"` is added to the retryable substrings and `"5xx"` is
tested alongside the bare `"500"`. -/
theorem C2_retry_classification_amended (e : PyExc) :
    should_retry e = amended_should_retry e := by
  simp only [should_retry, amended_should_retry, retryable_any_perm]
  rfl

/-- C10: `should_retry` tests the retryable substrings before the
non-retryable ones, so a message matching a retryable token is retried even
when it also matches a non-retryable token. -/
theorem C10_retryable_precedence (e : PyExc)
    (h1 : retryable_conditions.any (fun c => msgContains (pyLower e.msg) c) = true)
    (h2 : non_retryable_conditions.any (fun c => msgContains (pyLower e.msg) c) = true) :
    should_retry e = true := by
  cases hk : isNetworkExc e.kind <;> simp [should_retry, hk, h1]

/-- Witness for C10: a message holding both `"connection"` (retryable) and
`"401"` (non-retryable) is classified retryable. -/
theorem C10_retryable_precedence_witness :
    retryable_conditions.any
        (fun c => msgContains (pyLower "Connection refused: 401 Unauthorized") c) = true
    ∧ non_retryable_conditions.any
        (fun c => msgContains (pyLower "Connection refused: 401 Unauthorized") c) = true
    ∧ should_retry ⟨.generic, "Connection refused: 401 Unauthorized"⟩ = true :=
  ⟨by decide, by decide, C10_retryable_precedence ⟨.generic, "Connection refused: 401 Unauthorized"⟩
    (by decide) (by decide)⟩

/-- The retry loop with `fuel ≥ 1` iterations left, on an operation that
fails with a retryable error at every attempt, invokes the operation at each
of the `fuel` remaining attempt indices, sleeps after every attempt except
the last, and ends with the last attempt's error. -/
theorem retryAux_allFail {A : Type} (cfg : RetryConfig) (op : Nat → Except PyExc A)
    (randf : Nat → ℚ) (errf : Nat → PyExc)
    (h1 : ∀ a, op a = Except.error (errf a))
    (h2 : ∀ a, should_retry (errf a) = true) :
    ∀ fuel a, 1 ≤ fuel →
      retryAux cfg op randf a fuel
        = (some (Except.error (errf (a + fuel - 1))),
           List.range' a fuel,
           (List.range' a (fuel - 1)).map
             (fun i => calculate_delay cfg i (randf i))) := by
  intro fuel
  induction fuel with
  | zero => intro a h; exact absurd h (by omega)
  | succ f ih =>
    intro a _
    by_cases hf : f = 0
    · subst hf
      simp [retryAux, h1 a, h2 a]
    · obtain ⟨g, rfl⟩ : ∃ g, f = g + 1 := ⟨f - 1, by omega⟩
      have hrec := ih (a + 1) (by omega)
      have ha : a + 1 + (g + 1) - 1 = a + (g + 1 + 1) - 1 := by omega
      conv_lhs => rw [retryAux]
      rw [h1 a]
      simp only [h2 a, hf, if_true, if_false, ite_true, ite_false, eq_self_iff_true,
        reduceIte]
      rw [hrec]
      simp [ha, List.range'_succ]

/-- C3: `retry_async` with `max_attempts = N ≥ 1` on an operation raising a
retryable error at every attempt invokes the operation exactly at attempts
`0, …, N-1` (N times, no more, no fewer), sleeps the backoff delay only
after attempts `0, …, N-2` (never after the final attempt), and re-raises
the last attempt's error. -/
theorem C3_retry_termination {A : Type} (cfg : RetryConfig) (op : Nat → Except PyExc A)
    (randf : Nat → ℚ) (errf : Nat → PyExc)
    (h1 : ∀ a, op a = Except.error (errf a))
    (h2 : ∀ a, should_retry (errf a) = true)
    (hN : 1 ≤ cfg.max_attempts) :
    retry_async cfg op randf
      = (some (Except.error (errf (cfg.max_attempts - 1))),
         List.range cfg.max_attempts,
         (List.range (cfg.max_attempts - 1)).map
           (fun a => calculate_delay cfg a (randf a))) := by
  have h := retryAux_allFail cfg op randf errf h1 h2 cfg.max_attempts 0 hN
  simpa [retry_async, List.range_eq_range'] using h

/-- Witness for C3: the STT retry config (3 attempts) on an operation always
raising a timeout makes attempts 0, 1, 2, sleeps twice, and re-raises the
timeout error. -/
theorem C3_retry_termination_witness :
    retry_async ⟨3, 1, 5, 2, true⟩
        (fun _ => (Except.error ⟨.generic, "Request timeout"⟩ : Except PyExc String))
        (fun _ => 0)
      = (some (Except.error ⟨.generic, "Request timeout"⟩),
         List.range 3,
         (List.range 2).map (fun a => calculate_delay ⟨3, 1, 5, 2, true⟩ a 0)) :=
  C3_retry_termination ⟨3, 1, 5, 2, true⟩
    (fun _ => (Except.error ⟨.generic, "Request timeout"⟩ : Except PyExc String))
    (fun _ => 0) (fun _ => ⟨.generic, "Request timeout"⟩)
    (fun _ => rfl)
    (fun _ => show should_retry ⟨.generic, "Request timeout"⟩ = true by decide)
    (by decide)

/-- C7 counterexample: a config with `exponential_base = 1/2` and jitter
disabled has strictly decreasing delays, so `delay(a+1) ≥ delay(a)` fails
for an arbitrary `RetryConfig`. -/
theorem C7_backoff_counterexample :
    calculate_delay ⟨3, 1, 10, 1/2, false⟩ 1 0 < calculate_delay ⟨3, 1, 10, 1/2, false⟩ 0 0 := by
  norm_num [calculate_delay]

/-- C7 amended: with jitter disabled the delay equals
`min(max_delay, base_delay * exponential_base ^ attempt)` and never exceeds
`max_delay`, for every config; monotonicity `delay(a) ≤ delay(a+1)` holds
once `base_delay ≥ 0` and `exponential_base ≥ 1`. -/
theorem C7_backoff_amended (cfg : RetryConfig) (a : Nat) (r r' : ℚ)
    (hj : cfg.jitter = false) :
    calculate_delay cfg a r
        = min cfg.max_delay (cfg.base_delay * cfg.exponential_base ^ a)
    ∧ calculate_delay cfg a r ≤ cfg.max_delay
    ∧ (0 ≤ cfg.base_delay → 1 ≤ cfg.exponential_base →
        calculate_delay cfg a r ≤ calculate_delay cfg (a + 1) r') := by
  simp only [calculate_delay, hj, Bool.false_eq_true, if_false]
  refine ⟨min_comm _ _, min_le_right _ _, fun hb he => ?_⟩
  have h0 : (0 : ℚ) ≤ cfg.base_delay * cfg.exponential_base ^ a :=
    mul_nonneg hb (pow_nonneg (zero_le_one.trans he) a)
  have hstep : cfg.base_delay * cfg.exponential_base ^ a
      ≤ cfg.base_delay * cfg.exponential_base ^ (a + 1) := by
    rw [pow_succ, ← mul_assoc]
    exact le_mul_of_one_le_right h0 he
  exact min_le_min hstep le_rfl

/-- Witness for C7 amended: the STT config with jitter off has
`delay(0) = min(5, 1·2⁰)`, capped by 5, and `delay(0) ≤ delay(1)`. -/
theorem C7_backoff_amended_witness :
    calculate_delay ⟨3, 1, 5, 2, false⟩ 0 0 = min 5 (1 * 2 ^ 0)
    ∧ calculate_delay ⟨3, 1, 5, 2, false⟩ 0 0 ≤ 5
    ∧ calculate_delay ⟨3, 1, 5, 2, false⟩ 0 0 ≤ calculate_delay ⟨3, 1, 5, 2, false⟩ 1 0 :=
  have h := C7_backoff_amended ⟨3, 1, 5, 2, false⟩ 0 0 0 rfl
  ⟨h.1, h.2.1, h.2.2 (by norm_num) (by norm_num)⟩

/-- The truncated transcript never exceeds 1000 characters. -/
theorem truncate_transcript_len (s : String) : pyLen (truncate_transcript s) ≤ 1000 := by
  unfold truncate_transcript
  split
  · simp [pyLen, pySlice, List.length_take]
  · omega

/-- The truncated AI reply never exceeds 5003 characters (5000 plus the
appended `"..."`). -/
theorem truncate_ai_response_len (s : String) : pyLen (truncate_ai_response s) ≤ 5003 := by
  have h3 : ("..." : String).data.length = 3 := rfl
  unfold truncate_ai_response
  split
  · simp [pyLen, pyConcat, pySlice, List.length_take, h3]
    try omega
  · unfold pyLen at *
    omega

/-- C5 counterexample: a pipeline run whose AI stage yields 5001 characters
succeeds (truncated, not rejected), but the reply passed onward has 5003
characters — `ai_response[:5000] + "..."` — exceeding the claimed 5000-char
bound. -/
theorem C5_output_truncation_counterexample :
    (unified_inference ⟨true, 1, .ok "hi",
        fun _ => .ok (String.mk (List.replicate 5001 'a')), fun _ => .ok ()⟩).1
      = Except.ok ⟨"hi", truncate_ai_response (String.mk (List.replicate 5001 'a'))⟩
    ∧ 5000 < pyLen (truncate_ai_response (String.mk (List.replicate 5001 'a'))) := by
  have hgt : 5000 < pyLen (String.mk (List.replicate 5001 'a')) := by
    show 5000 < (List.replicate 5001 'a').length
    rw [List.length_replicate]
    norm_num
  have htr : truncate_ai_response (String.mk (List.replicate 5001 'a'))
      = String.mk (List.replicate 5000 'a' ++ ("..." : String).data) := by
    rw [truncate_ai_response, if_pos hgt]
    show String.mk ((List.replicate 5001 'a').take 5000 ++ ("..." : String).data) = _
    rw [List.take_replicate]
    norm_num
  have h3 : ("..." : String).data.length = 3 := rfl
  refine ⟨rfl, ?_⟩
  rw [htr]
  show 5000 < (List.replicate 5000 'a' ++ ("..." : String).data).length
  rw [List.length_append, List.length_replicate, h3]
  norm_num

/-- C5 amended: every successful pipeline run truncates rather than rejects,
and passes onward a transcript of at most 1000 characters and an AI reply of
at most 5003 characters (5000 plus an appended ellipsis when truncated). -/
theorem C5_output_truncation_amended (req : InferenceRequest) (resp : PipelineResponse)
    (h : (unified_inference req).1 = Except.ok resp) :
    pyLen resp.transcript ≤ 1000 ∧ pyLen resp.ai_response ≤ 5003 := by
  unfold unified_inference at h
  repeat' split at h
  all_goals try exact Except.noConfusion h
  injection h with h
  subst h
  exact ⟨truncate_transcript_len _, truncate_ai_response_len _⟩

/-- Witness for C5 amended: a concrete successful run with short outputs. -/
theorem C5_output_truncation_amended_witness :
    pyLen "hi" ≤ 1000 ∧ pyLen "ok" ≤ 5003 :=
  C5_output_truncation_amended
    ⟨true, 1, .ok "hi", fun _ => .ok "ok", fun _ => .ok ()⟩ ⟨"hi", "ok"⟩ rfl

/-- C6: on a valid request whose STT stage exceeds its deadline, the
pipeline returns the 504 stage-timeout error having invoked only the STT
stage: no AI call and no TTS call occurs for any input. -/
theorem C6_stt_timeout_aborts (req : InferenceRequest)
    (h1 : req.content_type_has_audio = true) (h2 : req.audio_size ≠ 0)
    (h3 : req.audio_size ≤ MAX_AUDIO_SIZE) (h4 : req.stt = StageOutcome.timeout) :
    unified_inference req = (.error ⟨504, "Speech recognition timed out"⟩, [StageCall.stt])
    ∧ (∀ s, StageCall.ai s ∉ (unified_inference req).2)
    ∧ (∀ s, StageCall.tts s ∉ (unified_inference req).2) := by
  have hmain : unified_inference req
      = (.error ⟨504, "Speech recognition timed out"⟩, [StageCall.stt]) := by
    unfold unified_inference
    simp [h1, h2, h4, Nat.not_lt.mpr h3]
  refine ⟨hmain, ?_, ?_⟩ <;> intro s <;> simp [hmain]

/-- Witness for C6: a concrete valid request with a timed-out STT stage. -/
theorem C6_stt_timeout_aborts_witness :
    unified_inference ⟨true, 1, .timeout, fun _ => .ok "x", fun _ => .ok ()⟩
      = (.error ⟨504, "Speech recognition timed out"⟩, [StageCall.stt]) :=
  (C6_stt_timeout_aborts ⟨true, 1, .timeout, fun _ => .ok "x", fun _ => .ok ()⟩
    rfl (by decide) (by decide) rfl).1

/-- C8 (code bug): when the ffmpeg conversion raises without having created
the converted file, the `finally` block's unguarded `os.remove` on the
never-created converted file raises `FileNotFoundError`, which replaces the
ffmpeg error being propagated — the caller sees the cleanup's error, not the
conversion's. -/
theorem C8_cleanup_replaces_error :
    transcribe ⟨.failNoOutput, ⟨.generic, "ffmpeg conversion failed"⟩,
        Except.error ⟨.generic, "whisper never reached"⟩, STT_FALLBACK_CHAIN⟩
      = (Except.error fileNotFoundError, ⟨false, false⟩)
    ∧ fileNotFoundError ≠ ⟨.generic, "ffmpeg conversion failed"⟩ :=
  ⟨rfl, by decide⟩

/-- C9: when the retry-wrapped primary STT provider fails and every fallback
candidate fails too, `transcribe` does not raise but returns the fixed
non-empty placeholder `"[Speech recognition unavailable]"`; the chain's
text-only candidate itself returns the longer typed-message placeholder; the
placeholder is non-blank, so a valid request whose STT stage yields it
passes the empty-transcript check and the AI stage is invoked with it. -/
theorem C9_stt_placeholder (env : SttEnv) (e : PyExc)
    (hff : env.ffmpeg = .ok) (hp : env.primary = Except.error e)
    (hf : ∀ p ∈ env.fallbacks, ∃ e', p.2 = Except.error e') :
    (transcribe env).1 = Except.ok "[Speech recognition unavailable]"
    ∧ stt_text_only_mode
        = Except.ok "[Speech recognition unavailable - please type your message]"
    ∧ isBlank "[Speech recognition unavailable]" = false
    ∧ ∀ req : InferenceRequest, req.content_type_has_audio = true →
        req.audio_size ≠ 0 → req.audio_size ≤ MAX_AUDIO_SIZE →
        req.stt = StageOutcome.ok "[Speech recognition unavailable]" →
        StageCall.ai "[Speech recognition unavailable]" ∈ (unified_inference req).2 := by
  refine ⟨?_, rfl, by decide, ?_⟩
  · simp [transcribe, hff, hp, execute_fallback_chain,
      fallbackLoop_allFail e env.fallbacks hf 1, osRemove]
  · intro req ha hs hm hstt
    have htt : truncate_transcript "[Speech recognition unavailable]"
        = "[Speech recognition unavailable]" := by decide
    have hbl : isBlank "[Speech recognition unavailable]" = false := by decide
    unfold unified_inference
    simp [ha, hs, Nat.not_lt.mpr hm, hstt, hbl, htt]
    cases hA : req.ai "[Speech recognition unavailable]"
    case timeout => simp
    case failure e' => simp
    case ok a =>
      repeat' split
      all_goals simp

/-- Witness for C9: a concrete total-STT-failure environment and a concrete
valid request carrying the placeholder transcript. -/
theorem C9_stt_placeholder_witness :
    (transcribe ⟨.ok, ⟨.generic, "unused"⟩, Except.error ⟨.generic, "whisper down"⟩,
        [("Text-only mode", Except.error ⟨.generic, "fallback down"⟩)]⟩).1
      = Except.ok "[Speech recognition unavailable]"
    ∧ StageCall.ai "[Speech recognition unavailable]"
        ∈ (unified_inference ⟨true, 1, .ok "[Speech recognition unavailable]",
            fun _ => .ok "fine", fun _ => .ok ()⟩).2 :=
  have h := C9_stt_placeholder
    ⟨.ok, ⟨.generic, "unused"⟩, Except.error ⟨.generic, "whisper down"⟩,
      [("Text-only mode", Except.error ⟨.generic, "fallback down"⟩)]⟩
    ⟨.generic, "whisper down"⟩ rfl rfl
    (fun p hp => ⟨⟨.generic, "fallback down"⟩, by
      simp only [List.mem_singleton] at hp
      simp [hp]⟩)
  ⟨h.1, h.2.2.2 ⟨true, 1, .ok "[Speech recognition unavailable]",
      fun _ => .ok "fine", fun _ => .ok ()⟩ rfl (by decide) (by decide) rfl⟩

end CGW
